import Mathlib

/-!
Verification of the instruction-printer script
`_patchB/patchpack/tools/make_devB_patch_v0271_overlay.py`.

The script's `main` consists of argparse handling for `--repo` / `--out`
followed by a block of `print(...)` statements (source lines 42-53).
We embed those statement lines character-for-character and give them
semantics through a faithful model of CPython's tokenization of a
single-line, double-quoted string literal: a backslash starts an escape
sequence (in particular a backslash before a double quote escapes the
quote instead of closing the literal), and a literal that is still open
at the end of the physical line is a SyntaxError.  CPython compiles the
whole module before executing any statement, so a SyntaxError anywhere
means the process prints nothing to stdout and exits with status 1;
argparse never runs.  The unused helpers `must_find` (lines 18-20) and
`write` (lines 22-24) are embedded directly, with the filesystem
modelled as an association list of files plus a list of directories.
-/

/-- Source line 42 of the script, character for character. -/
def srcLine42 : String := "    print(\"This patchpack includes PATCH_INSTRUCTIONS.md for applying edits.\")"

/-- Source line 43 of the script. -/
def srcLine43 : String := "    print(\"After applying, run this command from repo root to produce the overlay zip:\")"

/-- Source line 44 of the script. -/
def srcLine44 : String := "    print()"

/-- Source line 45 of the script.  The Python text ends in a backslash,
a double quote and a closing parenthesis. -/
def srcLine45 : String := "    print(\"zip -r devB_patch_v0.2.7.1_correctness_overlay.zip \\\")"

/-- Source line 46 of the script. -/
def srcLine46 : String := "    print(\"  src/sim/turn.ts \\\")"

/-- Source line 47 of the script. -/
def srcLine47 : String := "    print(\"  src/sim/types.ts \\\")"

/-- Source line 48 of the script. -/
def srcLine48 : String := "    print(\"  src/sim/peopleFirst.ts \\\")"

/-- Source line 49 of the script. -/
def srcLine49 : String := "    print(\"  src/sim/court.ts \\\")"

/-- Source line 50 of the script. -/
def srcLine50 : String := "    print(\"  src/App.tsx \\\")"

/-- Source line 51 of the script. -/
def srcLine51 : String := "    print(\"  tests/v0271_hotfix_p0_correctness.test.ts \\\")"

/-- Source line 52 of the script. -/
def srcLine52 : String := "    print(\"  DEV_NOTES.md\")"

/-- Source line 53 of the script. -/
def srcLine53 : String := "    print()"

/-- The statement lines of the print block in `main`, source lines 42-53,
in program order. -/
def mainPrintSource : List String :=
  [srcLine42, srcLine43, srcLine44, srcLine45, srcLine46, srcLine47,
   srcLine48, srcLine49, srcLine50, srcLine51, srcLine52, srcLine53]

/-- Value of a Python escape sequence backslash-`c` inside a double-quoted
string literal: an escaped quote or backslash yields that character,
backslash-n yields a newline, and an unrecognized escape keeps the
backslash (CPython behavior). -/
def pyEsc : Char → List Char
  | '"' => ['"']
  | '\\' => ['\\']
  | 'n' => ['\n']
  | c => ['\\', c]

/-- Decode the remainder of a single-line double-quoted Python string
literal, the opening quote already consumed.  Returns the decoded value
and the characters after the closing quote, or `none` when the line ends
before the literal is closed (CPython: SyntaxError, unterminated string
literal). -/
def pyDecodeStr : List Char → Option (List Char × List Char)
  | [] => Option.none
  | '"' :: rest => Option.some ([], rest)
  | '\\' :: c :: rest =>
    match pyDecodeStr rest with
    | Option.none => Option.none
    | Option.some (s, r) => Option.some (pyEsc c ++ s, r)
  | c :: rest =>
    match pyDecodeStr rest with
    | Option.none => Option.none
    | Option.some (s, r) => Option.some (c :: s, r)

/-- Drop leading indentation spaces. -/
def dropIndent : List Char → List Char
  | ' ' :: cs => dropIndent cs
  | cs => cs

/-- Strip an expected literal sequence of characters from the front of a
line, failing when the line diverges from it. -/
def stripLit : List Char → List Char → Option (List Char)
  | [], cs => Option.some cs
  | _ :: _, [] => Option.none
  | p :: ps, c :: cs => if c = p then stripLit ps cs else Option.none

/-- Compile and evaluate one `print` statement line: `print()` emits an
empty line, `print("...")` emits the decoded string value, and a line
whose string literal is unterminated fails to compile (`none`). -/
def decodePrintLine (line : String) : Option String :=
  match stripLit ("print(".toList) (dropIndent line.toList) with
  | Option.none => Option.none
  | Option.some rest =>
    match rest with
    | [')'] => Option.some ""
    | '"' :: rest2 =>
      match pyDecodeStr rest2 with
      | Option.some (s, [')']) => Option.some (String.mk s)
      | _ => Option.none
    | _ => Option.none

/-- The stdout lines the print block would produce, or `none` when some
statement line fails to compile.  CPython compiles every statement of the
module before executing any of them, so `none` means the whole run is a
SyntaxError. -/
def compiledStdout : Option (List String) := List.mapM decodePrintLine mainPrintSource

/-- The two configuration values accepted by the argparse setup of
`main`: `--repo` (default `"."`) and `--out` (default the fixed archive
name literal). -/
structure Args where
  repo : String
  out : String
deriving DecidableEq

/-- Default argument values from source lines 28-29. -/
def defaultArgs : Args := Args.mk "." "devB_patch_v0.2.7.1_correctness_overlay.zip"

/-- Argparse loop over the argument vector: `--repo VALUE` and
`--out VALUE` update the corresponding field; anything else (an
unrecognized flag, a flag missing its value, or a stray positional) is a
usage error, modelled as `none`. -/
def parseArgsFrom : Args → List String → Option Args
  | a, [] => Option.some a
  | a, "--repo" :: v :: rest => parseArgsFrom (Args.mk v a.out) rest
  | a, "--out" :: v :: rest => parseArgsFrom (Args.mk a.repo v) rest
  | _, _ => Option.none

/-- Parse an argument vector starting from the defaults. -/
def parseArgs (argv : List String) : Option Args := parseArgsFrom defaultArgs argv

/-- What the process writes to standard error: nothing, the argparse
usage message, or a SyntaxError report from failed compilation. -/
inductive ErrKind where
  | silent
  | usage
  | compileError
deriving DecidableEq

/-- Observable outcome of one invocation: exit status, the lines printed
to standard output, and the kind of text written to standard error. -/
structure RunResult where
  exitCode : Nat
  stdout : List String
  errOut : ErrKind
deriving DecidableEq

/-- Run the script on an argument vector.  Compilation of the module
comes first: if any statement line fails to compile, CPython reports a
SyntaxError on stderr and exits with status 1, printing nothing.
Otherwise argparse runs (usage error: status 2, usage text on stderr),
and on success the print block's lines go to stdout with exit status 0. -/
def runScript (argv : List String) : RunResult :=
  match compiledStdout with
  | Option.none => RunResult.mk 1 [] ErrKind.compileError
  | Option.some out =>
    match parseArgs argv with
    | Option.none => RunResult.mk 2 [] ErrKind.usage
    | Option.some _ => RunResult.mk 0 out ErrKind.silent

/-- Prefix test on character lists: does the second list start with the
first? -/
def leadsList : List Char → List Char → Bool
  | [], _ => true
  | _ :: _, [] => false
  | n :: ns, h :: hs => if n = h then leadsList ns hs else false

/-- Substring occurrence test on character lists. -/
def occursIn : List Char → List Char → Bool
  | n, [] => leadsList n []
  | n, h :: hs => if leadsList n (h :: hs) then true else occursIn n hs

/-- Python's `needle in haystack` substring containment on strings. -/
def strContains (haystack needle : String) : Bool :=
  occursIn needle.toList haystack.toList

/-- Helper `must_find` from source lines 18-20: when the needle does not
occur in the haystack, raise `RuntimeError` with the message
`[LABEL] anchor not found:` followed by the needle on the next line;
otherwise return normally. -/
def must_find (haystack needle label : String) : Except String Unit :=
  if strContains haystack needle then Except.ok ()
  else Except.error ("[" ++ label ++ "] anchor not found:\n" ++ needle)

/-- A path in the modelled filesystem, as a list of components. -/
abbrev FilePath0 := List String

/-- Modelled filesystem state: an association list from file paths to
their text content, and the list of existing directories. -/
structure FS where
  files : List (FilePath0 × String)
  dirs : List FilePath0

/-- Store content at a path, replacing any previous binding (the
overwrite semantics of `Path.write_text`). -/
def setFile : List (FilePath0 × String) → FilePath0 → String → List (FilePath0 × String)
  | [], p, c => [(p, c)]
  | (q, c0) :: rest, p, c =>
    if q = p then (p, c) :: rest else (q, c0) :: setFile rest p c

/-- Look up the content stored at a path. -/
def lookupFile : List (FilePath0 × String) → FilePath0 → Option String
  | [], _ => Option.none
  | (q, c0) :: rest, p => if q = p then Option.some c0 else lookupFile rest p

/-- Boolean membership of a directory in the directory list. -/
def memB : List FilePath0 → FilePath0 → Bool
  | [], _ => false
  | x :: xs, d => if x = d then true else memB xs d

/-- Create one directory if it does not already exist (the `exist_ok`
semantics of `mkdir`). -/
def addDir (ds : List FilePath0) (d : FilePath0) : List FilePath0 :=
  if memB ds d then ds else ds ++ [d]

/-- The chain of ancestor directories of a path: every nonempty proper
initial segment.  These are the directories `path.parent.mkdir(parents=True,
exist_ok=True)` guarantees to exist. -/
def parentDirsOf : FilePath0 → List FilePath0
  | [] => []
  | [_] => []
  | x :: xs => [x] :: (parentDirsOf xs).map (List.cons x)

/-- Helper `write` from source lines 22-24: create all parent directories
of the path, then write the full content to the file, overwriting any
prior content. -/
def write (path : FilePath0) (content : String) (fs : FS) : FS :=
  FS.mk (setFile fs.files path content) (List.foldl addDir fs.dirs (parentDirsOf path))

theorem lookupFile_setFile (files : List (FilePath0 × String)) (p : FilePath0) (c : String) :
    lookupFile (setFile files p c) p = Option.some c := by
  induction files with
  | nil => simp [setFile, lookupFile]
  | cons hd tl ih =>
    obtain ⟨q, c0⟩ := hd
    by_cases h : q = p
    · simp [setFile, lookupFile, h]
    · simp [setFile, lookupFile, h, ih]

theorem memB_iff (ds : List FilePath0) (d : FilePath0) : memB ds d = true ↔ d ∈ ds := by
  induction ds with
  | nil => simp [memB]
  | cons x xs ih =>
    by_cases h : x = d
    · subst h
      simp [memB]
    · simp [memB, h, ih]
      intro h2
      exact absurd h2.symm h

theorem mem_addDir (ds : List FilePath0) (d e : FilePath0) (h : e ∈ ds ∨ e = d) :
    e ∈ addDir ds d := by
  unfold addDir
  split
  · rcases h with h1 | h1
    · exact h1
    · subst h1
      exact (memB_iff ds e).mp (by assumption)
  · rcases h with h1 | h1
    · exact List.mem_append_left _ h1
    · subst h1
      exact List.mem_append_right _ (List.mem_singleton.mpr rfl)

theorem mem_foldl_addDir (l : List FilePath0) (acc : List FilePath0) (e : FilePath0)
    (h : e ∈ acc ∨ e ∈ l) : e ∈ List.foldl addDir acc l := by
  induction l generalizing acc with
  | nil =>
    rcases h with h1 | h1
    · simpa using h1
    · simp at h1
  | cons x xs ih =>
    rw [List.foldl_cons]
    rcases h with h1 | h1
    · exact ih (addDir acc x) (Or.inl (mem_addDir acc x e (Or.inl h1)))
    · rcases List.mem_cons.mp h1 with h2 | h2
      · exact ih _ (Or.inl (mem_addDir acc x e (Or.inr h2)))
      · exact ih _ (Or.inr h2)

/-- Claim C1.  The claim states that whenever the arguments parse
successfully the printed archive-command block emits exactly the seven
literal file paths.  In the code, the string literals on source lines
45-51 end in a backslash-escaped quote and are therefore unterminated,
so compilation fails and every invocation aborts with a SyntaxError:
even for the empty argument vector, which argparse would accept, the
standard output is empty and no file path is ever emitted. -/
theorem no_paths_emitted_syntax_error :
    parseArgs [] = Option.some defaultArgs ∧
    (runScript []).stdout = [] ∧ (runScript []).exitCode = 1 := by
  refine ⟨rfl, rfl, rfl⟩

/-- Claim C2.  The claim states that a no-argument invocation prints the
announcement sentence first and the archive command naming the zip and
the seven paths.  In the code, source line 42 alone would print the
announcement sentence, but source line 45 (the line naming the archive)
has an unterminated string literal, so the module does not compile and
the no-argument invocation prints nothing at all. -/
theorem announcement_not_printed_syntax_error :
    decodePrintLine srcLine42 =
      Option.some "This patchpack includes PATCH_INSTRUCTIONS.md for applying edits." ∧
    decodePrintLine srcLine45 = Option.none ∧
    compiledStdout = Option.none ∧
    (runScript []).stdout = [] := by
  refine ⟨rfl, rfl, rfl, rfl⟩

/-- Claim C3.  The claim states that the no-argument invocation's output
begins with the announcement sentence and ends with a trailing blank
line.  In the code, the no-argument invocation is a SyntaxError: exit
status 1, empty standard output, error report on standard error. -/
theorem no_arg_invocation_syntax_error :
    runScript [] = RunResult.mk 1 [] ErrKind.compileError := by
  rfl

/-- Claim C4.  For every path string, supplying `--repo` with that value
produces standard output identical, line for line, to an invocation with
no `--repo` argument.  This holds of the code: both invocations fail
compilation identically and print nothing, so the repository-root value
influences no printed line. -/
theorem repo_value_no_output_change (p : String) :
    (runScript ["--repo", p]).stdout = (runScript []).stdout := by
  rfl

/-- Claim C5.  The claim states that with or without `--out` the command
block prints the archive filename literal.  In the code, the line that
would print the archive name (source line 45) does not compile, so no
invocation prints the archive filename at all. -/
theorem archive_name_not_printed_syntax_error :
    decodePrintLine srcLine45 = Option.none ∧
    (runScript ["--out", "custom.zip"]).stdout = [] ∧
    (runScript []).stdout = [] := by
  refine ⟨rfl, rfl, rfl⟩

/-- Claim C6.  The claim states that every invocation whose arguments
parse successfully exits with status 0 after printing.  In the code,
even an argument vector that argparse would accept (here: the defaults
spelled out explicitly) exits with status 1 because module compilation
fails with a SyntaxError. -/
theorem exit_status_not_zero_syntax_error :
    parseArgs ["--repo", ".", "--out", "devB_patch_v0.2.7.1_correctness_overlay.zip"] =
      Option.some defaultArgs ∧
    (runScript ["--repo", ".", "--out",
      "devB_patch_v0.2.7.1_correctness_overlay.zip"]).exitCode = 1 := by
  refine ⟨rfl, rfl⟩

/-- Claim C7.  The claim states that an unrecognized flag such as
`--bogus` exits non-zero with a usage message on standard error.  In the
code, argparse would indeed reject `--bogus`, but the SyntaxError
pre-empts it: the process exits with status 1 and the text on standard
error is the SyntaxError report, not the usage message. -/
theorem bogus_flag_no_usage_message :
    parseArgs ["--bogus"] = Option.none ∧
    runScript ["--bogus"] = RunResult.mk 1 [] ErrKind.compileError := by
  refine ⟨rfl, rfl⟩

/-- Claim C8.  For every haystack, needle and label such that the needle
is not contained in the haystack, `must_find` raises an error whose
message names the label (in brackets) and the missing needle text (after
the colon and newline). -/
theorem must_find_missing_anchor (haystack needle label : String)
    (h : strContains haystack needle = false) :
    must_find haystack needle label =
      Except.error ("[" ++ label ++ "] anchor not found:\n" ++ needle) := by
  simp [must_find, h]

/-- Witness for claim C8 at a concrete missing anchor. -/
theorem must_find_missing_anchor_witness :
    must_find "export const x = 1" "function applyTurn" "turn.ts" =
      Except.error ("[" ++ "turn.ts" ++ "] anchor not found:\n" ++ "function applyTurn") :=
  must_find_missing_anchor "export const x = 1" "function applyTurn" "turn.ts" (by decide)

/-- Claim C9.  For every target path and content, `write` ensures every
parent directory of the path exists and leaves the file at the path
holding exactly the given content, overwriting any prior content. -/
theorem write_parents_and_content (path : FilePath0) (content : String) (fs : FS) :
    lookupFile (write path content fs).files path = Option.some content ∧
    (parentDirsOf path).all (memB (write path content fs).dirs) = true := by
  constructor
  · exact lookupFile_setFile fs.files path content
  · apply List.all_eq_true.mpr
    intro d hd
    exact (memB_iff _ d).mpr (mem_foldl_addDir (parentDirsOf path) fs.dirs d (Or.inr hd))

/-- Claim C10.  For every haystack, needle and label such that the
needle is contained in the haystack, `must_find` returns normally,
raising no error. -/
theorem must_find_present_ok (haystack needle label : String)
    (h : strContains haystack needle = true) :
    must_find haystack needle label = Except.ok () := by
  simp [must_find, h]

/-- Witness for claim C10 at a concrete present anchor. -/
theorem must_find_present_ok_witness :
    must_find "function applyTurn(state)" "applyTurn" "turn.ts" = Except.ok () :=
  must_find_present_ok "function applyTurn(state)" "applyTurn" "turn.ts" (by decide)
